import Mathlib

/-!
Verification of the gesture-classification and lesson-progression engine of the
spell-your-name repository.

The TypeScript sources are embedded shallowly:

* Scores in `classifyHandGesture` are of the form `(matches / 5) * confidence`
  with `matches : 0..5` and `confidence ∈ {0.7, 0.75, 0.8, 0.85, 0.9}`.  We
  scale every such score by 500 and work in `Nat`: a score `s` corresponds to
  the real number `s / 500`, the acceptance threshold `0.7` corresponds to
  `350`, and `0.3` to `150`.  All products `matches * confidence` occurring in
  the table are pairwise equal exactly when their defining pairs are equal, so
  every comparison performed by the JavaScript float code agrees with the
  scaled integer comparison.
* Scores in `compareWithExpectedPattern` are scaled by 100 (`1.0 ↦ 100`).
* JavaScript strings are modelled as `List Char`; `toUpperCase` as
  `List.map Char.toUpper`.
* Detection confidences held in React state are modelled as `ℚ`.
* The purely presentational string fields of the pattern tables
  (`description`, `tips`, feedback messages) are elided; only the boolean
  finger signatures and numeric weights that the scoring logic reads are kept.
-/

set_option maxRecDepth 100000

namespace SpellYourName

/-- The five per-finger extension booleans, ordered thumb, index, middle,
ring, pinky exactly as the `fingerTips = [4, 8, 12, 16, 20]` arrays order
them in the sources. -/
structure FingerPattern where
  thumb : Bool
  indexF : Bool
  middle : Bool
  ringF : Bool
  pinky : Bool
deriving DecidableEq

/-- One entry of the `gestures` table of `classifyHandGesture`
(src/unnamed/part_001 lines 194-221, identical in part_002 lines 194-221):
a letter, its expected finger booleans, and its base-confidence weight in
hundredths (`0.8 ↦ 80`). -/
structure Gesture where
  letter : Char
  pattern : FingerPattern
  conf : Nat
deriving DecidableEq

/-- The 26-entry `gestures` table from `classifyHandGesture` in
src/unnamed/part_001 (lines 194-221), in its source (A→Z) insertion order. -/
def gestures : List Gesture :=
  [ ⟨'A', ⟨false, false, false, false, false⟩, 80⟩
  , ⟨'B', ⟨false, true,  true,  true,  true ⟩, 85⟩
  , ⟨'C', ⟨false, false, false, false, false⟩, 70⟩
  , ⟨'D', ⟨false, true,  false, false, false⟩, 90⟩
  , ⟨'E', ⟨false, false, false, false, false⟩, 80⟩
  , ⟨'F', ⟨false, true,  true,  false, false⟩, 85⟩
  , ⟨'G', ⟨false, true,  false, false, false⟩, 90⟩
  , ⟨'H', ⟨false, true,  true,  false, false⟩, 85⟩
  , ⟨'I', ⟨false, false, false, false, true ⟩, 90⟩
  , ⟨'J', ⟨false, false, false, false, true ⟩, 90⟩
  , ⟨'K', ⟨false, true,  true,  false, false⟩, 85⟩
  , ⟨'L', ⟨true,  true,  false, false, false⟩, 90⟩
  , ⟨'M', ⟨false, false, false, false, false⟩, 70⟩
  , ⟨'N', ⟨false, false, false, false, false⟩, 70⟩
  , ⟨'O', ⟨false, false, false, false, false⟩, 70⟩
  , ⟨'P', ⟨false, false, true,  false, false⟩, 80⟩
  , ⟨'Q', ⟨false, true,  false, false, false⟩, 80⟩
  , ⟨'R', ⟨false, true,  true,  false, false⟩, 80⟩
  , ⟨'S', ⟨false, false, false, false, false⟩, 80⟩
  , ⟨'T', ⟨false, false, false, false, false⟩, 70⟩
  , ⟨'U', ⟨false, true,  true,  false, false⟩, 85⟩
  , ⟨'V', ⟨false, true,  true,  false, false⟩, 85⟩
  , ⟨'W', ⟨false, true,  true,  true,  false⟩, 90⟩
  , ⟨'X', ⟨false, true,  false, false, false⟩, 80⟩
  , ⟨'Y', ⟨false, false, false, false, true ⟩, 90⟩
  , ⟨'Z', ⟨false, true,  false, false, false⟩, 80⟩ ]

/-- `patternScore` before division: the count of fingers whose actual extended
boolean equals the expected one (the `pattern.forEach` loop of
`classifyHandGesture`). -/
def matchCount (expected actual : FingerPattern) : Nat :=
  (if expected.thumb = actual.thumb then 1 else 0) +
  (if expected.indexF = actual.indexF then 1 else 0) +
  (if expected.middle = actual.middle then 1 else 0) +
  (if expected.ringF = actual.ringF then 1 else 0) +
  (if expected.pinky = actual.pinky then 1 else 0)

/-- `finalScore = patternScore * confidence`, scaled by 500: the real score
`(matches / 5) * (conf / 100)` becomes `matches * conf`. -/
def finalScore (fs : FingerPattern) (g : Gesture) : Nat :=
  matchCount g.pattern fs * g.conf

/-- The accumulation loop of `classifyHandGesture`: starting from
`bestMatch = 'A'`, `bestScore = 0`, each table entry replaces the current best
exactly when its final score is strictly greater (`finalScore > bestScore`). -/
def bestOf (fs : FingerPattern) : Char × Nat :=
  gestures.foldl
    (fun best g => if best.2 < finalScore fs g then (g.letter, finalScore fs g) else best)
    ('A', 0)

/-- The returned letter of `classifyHandGesture` in src/unnamed/part_001
(line 261): `bestScore > 0.7 ? bestMatch : 'A'`; threshold 0.7 is 350 in the
500-scale. -/
def classifyHandGesture (fs : FingerPattern) : Char :=
  if 350 < (bestOf fs).2 then (bestOf fs).1 else 'A'

/-- The returned letter of the `classifyHandGesture` variant in
src/unnamed/part_002 (line 265): same table and loop, acceptance threshold
lowered to 0.3 (= 150 in the 500-scale). -/
def classifyHandGesture' (fs : FingerPattern) : Char :=
  if 150 < (bestOf fs).2 then (bestOf fs).1 else 'A'

/-- The first table entry whose finger pattern is identical to `p`, as a
letter (`'A'` default is never used: every queried pattern is in the table). -/
def firstLetterSharing (p : FingerPattern) : Char :=
  ((gestures.find? (fun g => g.pattern == p)).map Gesture.letter).getD 'A'

/-- The maximal final score over the whole table, following the spec's words
for the C8 tie-break claim. -/
def specMaxScore (fs : FingerPattern) : Nat :=
  gestures.foldl (fun m g => max m (finalScore fs g)) 0

/-- The first letter, in the table's fixed A→Z order, attaining the maximal
final score — the spec's description of the tie-break, to be compared with
the source-derived `bestOf`. -/
def specFirstMaxLetter (fs : FingerPattern) : Char :=
  ((gestures.find? (fun g => finalScore fs g == specMaxScore fs)).map Gesture.letter).getD 'A'

/-! ## The README's pattern-comparison functions
(`getExpectedASLPattern`, src/README.md lines 698-833, and
`compareWithExpectedPattern`, lines 835-861). -/

/-- One `ASLPattern` record of `getExpectedASLPattern`: the five expected
finger booleans.  The record's `description` and `tips` strings are UI text
never read by the scoring logic and are elided. -/
structure ASLPattern where
  thumb : Bool
  indexF : Bool
  middle : Bool
  ringF : Bool
  pinky : Bool
deriving DecidableEq

/-- The 26-entry `patterns` table inside `getExpectedASLPattern`
(src/README.md lines 699-830). -/
def expectedPatterns : List (Char × ASLPattern) :=
  [ ('A', ⟨true,  false, false, false, false⟩)
  , ('B', ⟨false, true,  true,  true,  true ⟩)
  , ('C', ⟨false, false, false, false, false⟩)
  , ('D', ⟨false, true,  false, false, false⟩)
  , ('E', ⟨false, false, false, false, false⟩)
  , ('F', ⟨true,  true,  true,  false, false⟩)
  , ('G', ⟨false, true,  false, false, false⟩)
  , ('H', ⟨false, true,  true,  false, false⟩)
  , ('I', ⟨false, false, false, false, true ⟩)
  , ('J', ⟨false, false, false, false, true ⟩)
  , ('K', ⟨false, true,  true,  false, false⟩)
  , ('L', ⟨true,  true,  false, false, false⟩)
  , ('M', ⟨false, false, false, false, false⟩)
  , ('N', ⟨false, false, false, false, false⟩)
  , ('O', ⟨false, false, false, false, false⟩)
  , ('P', ⟨false, false, true,  false, false⟩)
  , ('Q', ⟨false, true,  false, false, false⟩)
  , ('R', ⟨false, true,  true,  false, false⟩)
  , ('S', ⟨false, false, false, false, false⟩)
  , ('T', ⟨false, false, false, false, false⟩)
  , ('U', ⟨false, true,  true,  false, false⟩)
  , ('V', ⟨false, true,  true,  false, false⟩)
  , ('W', ⟨false, true,  true,  true,  false⟩)
  , ('X', ⟨false, true,  false, false, false⟩)
  , ('Y', ⟨true,  false, false, false, true ⟩)
  , ('Z', ⟨false, true,  false, false, false⟩) ]

/-- `getExpectedASLPattern(letter)`: look the uppercased letter up in the
table, falling back to the `'A'` entry (`patterns[letter.toUpperCase()] ||
patterns['A']`, src/README.md line 832). -/
def getExpectedASLPattern (letter : Char) : ASLPattern :=
  ((expectedPatterns.find? (fun e => e.1 == letter.toUpper)).map Prod.snd).getD
    ⟨true, false, false, false, false⟩

/-- The agreement count of `compareWithExpectedPattern`'s `fingers.forEach`
loop: how many of the five extended booleans of the analysed hand equal the
expected ones.  Only the `extended` boolean of each analysed finger is read
by the source, so the analysis argument is the five booleans. -/
def agreeCount (analysis : FingerPattern) (expected : ASLPattern) : Nat :=
  (if analysis.thumb = expected.thumb then 1 else 0) +
  (if analysis.indexF = expected.indexF then 1 else 0) +
  (if analysis.middle = expected.middle then 1 else 0) +
  (if analysis.ringF = expected.ringF then 1 else 0) +
  (if analysis.pinky = expected.pinky then 1 else 0)

/-- `compareWithExpectedPattern` (src/README.md lines 835-861), scores scaled
by 100: `baseScore = correctMatches/5 ↦ correctMatches * 20`, the close-match
bonuses `0.25 ↦ 25` and `0.15 ↦ 15`, the cap `1.0 ↦ 100`. -/
def compareWithExpectedPattern (analysis : FingerPattern) (expected : ASLPattern) : Nat :=
  let m := agreeCount analysis expected
  let baseScore := m * 20
  if 4 ≤ m then min (baseScore + 25) 100
  else if 3 ≤ m then min (baseScore + 15) 100
  else baseScore

/-! ## The stability check of src/app/components/CameraComponent.tsx -/

/-- The `FingerGuide` record of CameraComponent.tsx (lines 26-32). -/
structure FingerGuide where
  thumb : Bool
  indexF : Bool
  middle : Bool
  ringF : Bool
  pinky : Bool
deriving DecidableEq

/-- The `HandState` record of CameraComponent.tsx (lines 11-24): the
`landmarks` array is never read by the stability check and is elided;
`fingerStates` is optional exactly as in the source.  The float `confidence`
is modelled as `ℚ`. -/
structure HandState where
  isInCircle : Bool
  fingerCount : Nat
  confidence : ℚ
  isStable : Bool
  fingerStates : Option FingerGuide

/-- `isHandStateStable(current, previous)` (CameraComponent.tsx lines
477-494): `false` when `previous` is null or either frame lacks finger
states; otherwise requires `isInCircle` to match, every finger boolean to be
exactly equal, and the confidence drift to be `< 0.2`. -/
def isHandStateStable (current : HandState) (previous : Option HandState) : Bool :=
  match previous with
  | none => false
  | some prev =>
    match current.fingerStates, prev.fingerStates with
    | some cf, some pf =>
        (current.isInCircle == prev.isInCircle) &&
        (cf.thumb == pf.thumb && cf.indexF == pf.indexF && cf.middle == pf.middle &&
          cf.ringF == pf.ringF && cf.pinky == pf.pinky) &&
        decide (|current.confidence - prev.confidence| < 1/5)
    | _, _ => false

/-! ## The per-frame detection state machine of src/unnamed/part_001

The `hands.onResults` callback (part_001 lines 52-100) reads and writes the
component state `detectedLetter`, `confidence`, `isCorrect`,
`detectionCount`, `lastDetectedLetter`.  The callback is registered once
per run of the enclosing effect, whose dependency array is
`[isActive, targetLetter, onCorrectGesture]` (line 169): the plain state
reads inside the registered closure — `lastDetectedLetter` in the
`letter === lastDetectedLetter` comparison and `detectionCount` in the
`detectionCount >= 3` guard — therefore see the values *frozen at
registration time*, not the current ones.  Only the functional update
`setDetectionCount(prev => prev + 1)` operates on the live value.  The
frozen values are passed explicitly as `frozenCount` / `frozenLast`; at
mount they are `0` and `null`.  The `Bool` component of the result records
that the `setTimeout` invoking `onCorrectGesture()` was scheduled by this
frame.  The geometric landmark-to-finger extraction (float comparisons on
`y` coordinates) happens upstream of this state machine, so a frame is
modelled as the extracted finger vector, or `none` when MediaPipe reports
no hand. -/

/-- The React state of the part_001 camera component that `onResults`
touches.  `fingerFeedback` is a UI string list and is elided. -/
structure DetectorState where
  detectedLetter : Option Char
  confidence : ℚ
  isCorrect : Bool
  detectionCount : Nat
  lastDetectedLetter : Option Char

/-- One invocation of the `hands.onResults` callback of src/unnamed/part_001
(lines 52-100) as registered with frozen closure values `frozenCount` and
`frozenLast`; `s` is the live component state the `setState` calls act on,
and `targetLetter` is the registration-time prop (the lesson's current
letter, or `none` for the empty string). -/
def onResults (frozenCount : Nat) (frozenLast : Option Char) (s : DetectorState)
    (frame : Option FingerPattern) (targetLetter : Option Char) : DetectorState × Bool :=
  match frame with
  | some fs =>
    let letter := classifyHandGesture fs
    -- `letter === lastDetectedLetter` compares against the frozen value;
    -- the then-branch increments the live counter functionally, the
    -- else-branch stores 1 and the letter
    let count := if some letter = frozenLast then s.detectionCount + 1 else 1
    let last := if some letter = frozenLast then s.lastDetectedLetter else some letter
    if targetLetter = some letter then
      -- `detectionCount >= 3` reads the frozen registration-time counter
      if 3 ≤ frozenCount then
        -- the scheduled timeout runs onCorrectGesture(), setIsCorrect(false),
        -- setDetectionCount(0)
        (⟨some letter, 9/10, false, 0, last⟩, true)
      else
        (⟨some letter, 9/10, true, count, last⟩, false)
    else
      (⟨some letter, 3/10, false, count, last⟩, false)
  | none =>
    -- the no-hand branch (lines 92-99) clears every piece of detection state
    (⟨none, 0, false, 0, none⟩, false)

/-- A stream of frames processed within one registration epoch (the frozen
closure values stay fixed, the live state threads through); the `Nat`
result counts how many frames scheduled an `onCorrectGesture` call. -/
def runFrames (frozenCount : Nat) (frozenLast : Option Char) (target : Option Char)
    (s : DetectorState) : List (Option FingerPattern) → DetectorState × Nat
  | [] => (s, 0)
  | frame :: rest =>
    let r := onResults frozenCount frozenLast s frame target
    let r' := runFrames frozenCount frozenLast target r.1 rest
    (r'.1, (if r.2 then 1 else 0) + r'.2)

/-! ## The lesson state machine of src/app/page.tsx -/

/-- The `LearningState` record of src/app/page.tsx (lines 8-12); the
JavaScript string `userName` is modelled as a list of characters. -/
structure LearningState where
  userName : List Char
  currentLetterIndex : Nat
  isLearning : Bool
deriving DecidableEq

/-- `handleNameSubmit` (page.tsx lines 23-29): uppercases the name, starts at
index 0, enters learning.  The `NameInput` component only ever submits a
trimmed non-empty name (`if (name.trim())`, NameInput.tsx line 14). -/
def handleNameSubmit (name : List Char) : LearningState :=
  ⟨name.map Char.toUpper, 0, true⟩

/-- `handleNextLetter` (page.tsx lines 31-57) together with its
`isProcessingRef` guard: a call is ignored while not learning or while the
2000 ms cooldown flag is set; otherwise the index advances, or on the last
letter learning ends with the index reset to 0, and the cooldown flag is
set.  The result pairs the new lesson state with the new flag; the
`setTimeout` that clears the flag 2000 ms later is `clearProcessing`. -/
def handleNextLetter (ls : LearningState) (processing : Bool) : LearningState × Bool :=
  if !ls.isLearning || processing then (ls, processing)
  else if ls.currentLetterIndex < ls.userName.length - 1 then
    ({ ls with currentLetterIndex := ls.currentLetterIndex + 1 }, true)
  else
    ({ ls with isLearning := false, currentLetterIndex := 0 }, true)

/-- The elapse of the 2000 ms cooldown timer of page.tsx (lines 54-56). -/
def clearProcessing (_processing : Bool) : Bool := false

/-- `handleReset` (page.tsx lines 59-65): from any state back to the empty
initial state. -/
def handleReset (_ls : LearningState) : LearningState := ⟨[], 0, false⟩

/-- `const currentLetter = userName[currentLetterIndex] || ''` (page.tsx
line 68); the empty-string fallback is `none`. -/
def currentLetter (ls : LearningState) : Option Char :=
  ls.userName.get? ls.currentLetterIndex

/-- The spec's lesson phases.  page.tsx stores no phase field; the phase is
read off the rendering conditions: an empty `userName` shows the name-entry
form (Idle), `isLearning` shows the camera (InProgress), and a set name with
learning finished shows the congratulations card (Completed). -/
inductive Phase where
  | Idle
  | InProgress
  | Completed
deriving DecidableEq

/-- The phase of a page.tsx `LearningState`, per the rendering conditions of
page.tsx lines 95-130. -/
def phase (ls : LearningState) : Phase :=
  if ls.userName = [] then .Idle
  else if ls.isLearning then .InProgress
  else .Completed

/-- The invariant of spec §3 (LessonState): while the lesson is in progress
the current index addresses a letter of the target name.  (`0 ≤ index` is
automatic: indices are naturals.) -/
def lessonInv (ls : LearningState) : Prop :=
  ls.isLearning = true → ls.currentLetterIndex < ls.userName.length

/-! ## The stability-and-processing effect of CameraComponent.tsx

CameraComponent.tsx confirms a gesture through a separate, duration-based
mechanism: its MediaPipe callback stores a `HandState` (on a no-hand frame
`{isInCircle: false, fingerCount: 0, confidence: 0, isStable: false}`,
lines 234-241), and a React effect (lines 514-548) reacts to the stored
state.  Milliseconds are modelled as naturals (`Date.now()` is monotone, so
the `now - stableStartTime` subtraction never truncates in reachable
runs). -/

/-- The `gesturePatterns` table of CameraComponent.tsx (lines 90-117). -/
def gesturePatterns : List (Char × FingerGuide) :=
  [ ('A', ⟨false, false, false, false, false⟩)
  , ('B', ⟨false, true,  true,  true,  true ⟩)
  , ('C', ⟨false, false, false, false, false⟩)
  , ('D', ⟨false, true,  false, false, false⟩)
  , ('E', ⟨false, false, false, false, false⟩)
  , ('F', ⟨true,  true,  true,  false, false⟩)
  , ('G', ⟨false, true,  false, false, false⟩)
  , ('H', ⟨false, true,  true,  false, false⟩)
  , ('I', ⟨false, false, false, false, true ⟩)
  , ('J', ⟨false, false, false, false, true ⟩)
  , ('K', ⟨false, true,  true,  false, false⟩)
  , ('L', ⟨true,  true,  false, false, false⟩)
  , ('M', ⟨false, false, false, false, false⟩)
  , ('N', ⟨false, false, false, false, false⟩)
  , ('O', ⟨false, false, false, false, false⟩)
  , ('P', ⟨false, true,  false, false, false⟩)
  , ('Q', ⟨false, true,  false, false, false⟩)
  , ('R', ⟨false, true,  true,  false, false⟩)
  , ('S', ⟨false, false, false, false, false⟩)
  , ('T', ⟨false, false, false, false, false⟩)
  , ('U', ⟨false, true,  true,  false, false⟩)
  , ('V', ⟨false, true,  true,  false, false⟩)
  , ('W', ⟨false, true,  true,  true,  false⟩)
  , ('X', ⟨false, true,  false, false, false⟩)
  , ('Y', ⟨true,  false, false, false, true ⟩)
  , ('Z', ⟨false, true,  false, false, false⟩) ]

/-- `isCorrectGesture(fingerStates)` of CameraComponent.tsx (lines 497-511):
`false` without finger states or without a table entry for the target,
otherwise the five-boolean comparison against `gesturePatterns[targetLetter]`. -/
def isCorrectGesture (fingerStates : Option FingerGuide) (targetLetter : Char) : Bool :=
  match fingerStates with
  | none => false
  | some fs =>
    match (gesturePatterns.find? (fun e => e.1 == targetLetter)).map Prod.snd with
    | none => false
    | some tg =>
        fs.thumb == tg.thumb && fs.indexF == tg.indexF && fs.middle == tg.middle &&
        fs.ringF == tg.ringF && fs.pinky == tg.pinky

/-- `STABILITY_DURATION` (CameraComponent.tsx line 75), in milliseconds. -/
def STABILITY_DURATION : Nat := 1000

/-- The stability-tracking state the effect of CameraComponent.tsx lines
514-548 touches: `stableStartTimeRef.current`, `stableTime`, and the
`isProcessing` cooldown flag (cleared `PROCESSING_COOLDOWN` ms after a
confirmation by a separate timeout). -/
structure StabilityState where
  stableStartTime : Option Nat
  stableTime : Nat
  isProcessing : Bool
deriving DecidableEq

/-- One run of the stability-and-processing effect (CameraComponent.tsx
lines 514-548) against the stored `handState`, the previous-frame snapshot
`lastHandStateRef.current`, and the clock value `now`; the `Bool` records
whether `onCorrectGesture` fired.  The effect early-returns — leaving the
whole stability state untouched — when the hand is absent or out of the
circle, or during the processing cooldown (line 515). -/
def stabilityEffect (handState : HandState) (last : Option HandState)
    (targetLetter : Char) (now : Nat) (s : StabilityState) : StabilityState × Bool :=
  if !handState.isInCircle || s.isProcessing then (s, false)
  else if isHandStateStable handState last then
    let start := s.stableStartTime.getD now
    let stableDuration := now - start
    if STABILITY_DURATION ≤ stableDuration ∧
        isCorrectGesture handState.fingerStates targetLetter = true then
      -- setIsProcessing(true); onCorrectGesture(); clear the stable clock
      (⟨none, 0, true⟩, true)
    else
      (⟨some start, stableDuration, s.isProcessing⟩, false)
  else
    -- unstable frame: the stable clock resets
    (⟨none, 0, s.isProcessing⟩, false)

/-! ## Claims about the classifier (C1, C3, C8) -/

/-- C1, counterexample: the claim fails at letter `C`.  `C`'s own pattern in
the `gestures` table is the all-closed vector, yet classifying that vector
returns `A` (the `A` entry, earlier in the table with a higher weight, wins
the strict-greater comparison), not `C`. -/
theorem C1_counterexample :
    (∃ g ∈ gestures, g.letter = 'C' ∧ g.pattern = ⟨false, false, false, false, false⟩) ∧
    classifyHandGesture ⟨false, false, false, false, false⟩ = 'A' ∧
    (bestOf ⟨false, false, false, false, false⟩).1 = 'A' ∧ ('A' : Char) ≠ 'C' := by
  decide

/-- C1, amended: classifying a letter's own pattern booleans yields, as best
match (in both classifier variants), the first letter in the table's A→Z
order whose pattern is identical to the fed letter's — the fed letter itself
exactly for A, B, D, F, I, L, P and W — and the best final score is at least
the fed letter's declared base weight (`score ≥ conf` is `5 * conf ≤ score`
in the 500-scale). -/
theorem C1_own_pattern_amended :
    ∀ g ∈ gestures,
      (bestOf g.pattern).1 = firstLetterSharing g.pattern ∧
      classifyHandGesture g.pattern = firstLetterSharing g.pattern ∧
      classifyHandGesture' g.pattern = firstLetterSharing g.pattern ∧
      5 * g.conf ≤ (bestOf g.pattern).2 := by
  decide

/-- C1, witness: the amended theorem applied to the `D` entry of the table;
`D`'s pattern is unique, so the classifier returns `D` itself with score
`450 = 5 · 90` (that is, `0.9`, `D`'s declared weight). -/
theorem C1_witness :
    ((⟨'D', ⟨false, true, false, false, false⟩, 90⟩ : Gesture) ∈ gestures) ∧
      classifyHandGesture ⟨false, true, false, false, false⟩ = 'D' := by
  refine ⟨by decide, ?_⟩
  have h := C1_own_pattern_amended ⟨'D', ⟨false, true, false, false, false⟩, 90⟩ (by decide)
  exact h.2.1.trans (by decide)

/-- C3, counterexample: on the all-extended input the best-scoring letter is
`B` (score `340/500 = 0.68`, below the part_001 acceptance threshold `0.7`),
yet the part_001 classifier returns the fabricated default `'A'` instead of
its best guess. -/
theorem C3_counterexample :
    (bestOf ⟨true, true, true, true, true⟩).1 = 'B' ∧
    (bestOf ⟨true, true, true, true, true⟩).2 ≤ 350 ∧
    classifyHandGesture ⟨true, true, true, true, true⟩ = 'A' ∧
    ('A' : Char) ≠ 'B' := by
  decide

/-- C3, amended: when the best final score is not above the acceptance
threshold, the part_001 classifier discards the best-scoring letter and
returns the default `'A'`.  (In the part_002 variant, whose threshold is
`0.3`, every one of the 32 possible finger vectors scores above threshold,
so that variant always returns its best guess.) -/
theorem C3_below_threshold_amended :
    (∀ fs : FingerPattern, (bestOf fs).2 ≤ 350 → classifyHandGesture fs = 'A') ∧
    (∀ t i m r p : Bool,
      150 < (bestOf ⟨t, i, m, r, p⟩).2 ∧
      classifyHandGesture' ⟨t, i, m, r, p⟩ = (bestOf ⟨t, i, m, r, p⟩).1) := by
  constructor
  · intro fs h
    unfold classifyHandGesture
    rw [if_neg (Nat.not_lt.mpr h)]
  · decide

/-- C3, witness: the amended theorem applied to the all-extended input,
whose best score `340` is below the part_001 threshold. -/
theorem C3_witness :
    (bestOf ⟨true, true, true, true, true⟩).2 ≤ 350 ∧
    classifyHandGesture ⟨true, true, true, true, true⟩ = 'A' := by
  exact ⟨by decide, C3_below_threshold_amended.1 ⟨true, true, true, true, true⟩ (by decide)⟩

/-- The canonical A→Z letter list, used to state that the `gestures` table is
in canonical order. -/
def azLetters : List Char :=
  ['A', 'B', 'C', 'D', 'E', 'F', 'G', 'H', 'I', 'J', 'K', 'L', 'M',
   'N', 'O', 'P', 'Q', 'R', 'S', 'T', 'U', 'V', 'W', 'X', 'Y', 'Z']

/-- C8, confirmed: the table is in the fixed canonical A→Z order, and for
every finger-state input the loop's strict-greater comparison makes `bestOf`
return exactly the first table letter attaining the maximal final score
(`specFirstMaxLetter`, written from the spec's words), together with that
maximal score — so equal maximal scores are deterministically resolved to
the first-seen letter. -/
theorem C8_tie_break_first_seen :
    gestures.map Gesture.letter = azLetters ∧
    ∀ t i m r p : Bool,
      (bestOf ⟨t, i, m, r, p⟩).1 = specFirstMaxLetter ⟨t, i, m, r, p⟩ ∧
      (bestOf ⟨t, i, m, r, p⟩).2 = specMaxScore ⟨t, i, m, r, p⟩ := by
  decide

/-! ## Claims about the README comparison functions (C9, C10) -/

/-- C9, counterexample: `A` does not belong to the all-closed fist cluster as
encoded in `getExpectedASLPattern` — its entry has the thumb extended — so
swapping `A` and `E` as target changes the score: on the all-extended
analysis, `A` scores `0.2` (one agreeing finger) while `E` scores `0`. -/
theorem C9_counterexample :
    compareWithExpectedPattern ⟨true, true, true, true, true⟩ (getExpectedASLPattern 'A') = 20 ∧
    compareWithExpectedPattern ⟨true, true, true, true, true⟩ (getExpectedASLPattern 'E') = 0 ∧
    getExpectedASLPattern 'A' ≠ getExpectedASLPattern 'E' := by
  decide

/-- C9, amended: `compareWithExpectedPattern` scores any two letters with
identical expected booleans identically on every analysis input; in
`getExpectedASLPattern`'s encoding the all-closed fist cluster is
`E/M/N/O/S/T` (`A` is excluded: its encoded pattern has the thumb extended),
so swapping any two letters of that cluster never changes the score. -/
theorem C9_cluster_swap_amended :
    ∀ t i m r p : Bool,
      ∀ x ∈ (['E', 'M', 'N', 'O', 'S', 'T'] : List Char),
        ∀ y ∈ (['E', 'M', 'N', 'O', 'S', 'T'] : List Char),
          compareWithExpectedPattern ⟨t, i, m, r, p⟩ (getExpectedASLPattern x) =
            compareWithExpectedPattern ⟨t, i, m, r, p⟩ (getExpectedASLPattern y) := by
  decide

/-- C9, witness: the amended theorem applied to the pair `E`, `S` on the
index-only analysis. -/
theorem C9_witness :
    ('E' ∈ (['E', 'M', 'N', 'O', 'S', 'T'] : List Char)) ∧
    ('S' ∈ (['E', 'M', 'N', 'O', 'S', 'T'] : List Char)) ∧
    compareWithExpectedPattern ⟨false, true, false, false, false⟩ (getExpectedASLPattern 'E') =
      compareWithExpectedPattern ⟨false, true, false, false, false⟩ (getExpectedASLPattern 'S') := by
  exact ⟨by decide, by decide,
    C9_cluster_swap_amended false true false false false 'E' (by decide) 'S' (by decide)⟩

/-- C10, confirmed: whenever at least 4 of the 5 finger booleans agree with
the expected pattern, the `+0.25` close-match bonus saturates the capped
score and `compareWithExpectedPattern` returns exactly `1.0` (100 in the
percent scale) — so an input wrong in one finger scores the same as a
perfect five-of-five match. -/
theorem C10_close_match_saturates :
    ∀ t i m r p t' i' m' r' p' : Bool,
      4 ≤ agreeCount ⟨t, i, m, r, p⟩ ⟨t', i', m', r', p'⟩ →
      compareWithExpectedPattern ⟨t, i, m, r, p⟩ ⟨t', i', m', r', p'⟩ = 100 := by
  decide

/-- C10, witness: the theorem applied to an analysis that is wrong in
exactly one finger (the thumb) against `D`'s expected pattern. -/
theorem C10_witness :
    4 ≤ agreeCount ⟨true, true, false, false, false⟩ ⟨false, true, false, false, false⟩ ∧
    compareWithExpectedPattern ⟨true, true, false, false, false⟩
      ⟨false, true, false, false, false⟩ = 100 := by
  exact ⟨by decide,
    C10_close_match_saturates true true false false false false true false false false (by decide)⟩

/-! ## The stability check (C4) -/

/-- Characterization of `isHandStateStable` on frames that both carry finger
states: stability is equivalent to matching in-circle flags, identical finger
booleans, and confidence drift below `0.2`. -/
theorem isHandStateStable_iff (c p : HandState) (cf pf : FingerGuide)
    (hc : c.fingerStates = some cf) (hp : p.fingerStates = some pf) :
    isHandStateStable c (some p) = true ↔
      (c.isInCircle = p.isInCircle ∧ cf = pf ∧ |c.confidence - p.confidence| < 1/5) := by
  obtain ⟨cft, cfi, cfm, cfr, cfp⟩ := cf
  obtain ⟨pft, pfi, pfm, pfr, pfp⟩ := pf
  simp only [isHandStateStable, hc, hp, Bool.and_eq_true, beq_iff_eq, decide_eq_true_eq,
    FingerGuide.mk.injEq]
  tauto

/-- C4, counterexample: two consecutive frames with bit-identical finger
booleans and zero confidence drift are nonetheless judged unstable when
their in-circle flags differ — `isHandStateStable` also compares
`isInCircle`, a condition the claim omits. -/
theorem C4_counterexample :
    (HandState.mk true 0 (1/2) false (some ⟨false, false, false, false, false⟩)).fingerStates =
      (HandState.mk false 0 (1/2) false (some ⟨false, false, false, false, false⟩)).fingerStates ∧
    (HandState.mk true 0 (1/2) false (some ⟨false, false, false, false, false⟩)).confidence =
      (HandState.mk false 0 (1/2) false (some ⟨false, false, false, false, false⟩)).confidence ∧
    isHandStateStable (HandState.mk true 0 (1/2) false (some ⟨false, false, false, false, false⟩))
      (some (HandState.mk false 0 (1/2) false (some ⟨false, false, false, false, false⟩))) =
      false := by
  refine ⟨rfl, rfl, ?_⟩
  norm_num [isHandStateStable]

/-- C4, amended: for two consecutive frames that both carry finger states,
the stability check returns `true` exactly when every finger's extended
boolean is identical, the confidence has not drifted by `0.2` or more, and —
the condition the claim omitted — the in-circle flags of the two frames
agree; and whenever the frames differ in any finger's extended boolean it
returns `false`. -/
theorem C4_stability_amended :
    (∀ (c p : HandState) (cf pf : FingerGuide),
      c.fingerStates = some cf → p.fingerStates = some pf →
      (isHandStateStable c (some p) = true ↔
        (c.isInCircle = p.isInCircle ∧ cf = pf ∧ |c.confidence - p.confidence| < 1/5))) ∧
    (∀ (c p : HandState) (cf pf : FingerGuide),
      c.fingerStates = some cf → p.fingerStates = some pf → cf ≠ pf →
      isHandStateStable c (some p) = false) := by
  refine ⟨fun c p cf pf hc hp => isHandStateStable_iff c p cf pf hc hp, ?_⟩
  intro c p cf pf hc hp hne
  cases hb : isHandStateStable c (some p) with
  | false => rfl
  | true =>
    exact absurd ((isHandStateStable_iff c p cf pf hc hp).mp hb).2.1 hne

/-- C4, witness: the amended theorem applied to a pair of identical in-circle
frames (stable) and to a pair differing in the thumb boolean (unstable). -/
theorem C4_witness :
    isHandStateStable (HandState.mk true 2 (1/2) false (some ⟨false, true, false, false, false⟩))
      (some (HandState.mk true 2 (1/2) false (some ⟨false, true, false, false, false⟩))) =
      true ∧
    isHandStateStable (HandState.mk true 2 (1/2) false (some ⟨true, true, false, false, false⟩))
      (some (HandState.mk true 2 (1/2) false (some ⟨false, true, false, false, false⟩))) =
      false := by
  constructor
  · exact (C4_stability_amended.1 _ _ _ _ rfl rfl).mpr ⟨rfl, rfl, by norm_num⟩
  · exact C4_stability_amended.2 _ _ _ _ rfl rfl (by decide)

/-! ## Claims about the per-frame and lesson state machines (C2, C5, C6, C7) -/

/-- C5, counterexample: in CameraComponent.tsx a no-hand frame does not
reset the stable-time state.  The MediaPipe callback stores
`{isInCircle: false, ...}` (lines 234-241) and the stability effect then
early-returns at its guard (line 515), so a prior stable clock — here a
streak started at 500 ms with 400 ms already accumulated — survives the
no-hand frame unchanged instead of resetting to zero. -/
theorem C5_counterexample :
    stabilityEffect (HandState.mk false 0 0 false none)
      (some (HandState.mk true 2 (4/5) false (some ⟨false, true, false, false, false⟩)))
      'D' 900 ⟨some 500, 400, false⟩ = (⟨some 500, 400, false⟩, false) ∧
    (⟨some 500, 400, false⟩ : StabilityState).stableTime ≠ 0 ∧
    (⟨some 500, 400, false⟩ : StabilityState).stableStartTime ≠ none := by
  refine ⟨rfl, by decide, by decide⟩

/-- C5, amended: a no-hand frame immediately resets part_001's accumulated
consecutive-detection counter (and its whole detection state) to zero for
every prior streak length; the stable-time state of CameraComponent.tsx,
however, is not reset by a no-hand frame — the stability effect
early-returns whenever the stored hand state is absent or out of circle,
leaving `stableStartTime` and `stableTime` exactly as they were (they are
cleared only by an in-circle unstable frame or by a confirmation). -/
theorem C5_no_hand_amended :
    (∀ (frozenCount : Nat) (frozenLast : Option Char) (s : DetectorState)
        (target : Option Char),
      onResults frozenCount frozenLast s none target = (⟨none, 0, false, 0, none⟩, false)) ∧
    (∀ (handState : HandState) (last : Option HandState) (target : Char)
        (now : Nat) (s : StabilityState),
      handState.isInCircle = false →
      stabilityEffect handState last target now s = (s, false)) := by
  constructor
  · intro _ _ _ _
    rfl
  · intro handState last target now s h
    unfold stabilityEffect
    rw [if_pos (by simp [h])]

/-- C5, witness: the amended theorem applied to the no-hand hand state that
CameraComponent.tsx stores, with a 900 ms streak pending: the part_001 half
resets everything, the CameraComponent.tsx half returns the stability state
untouched. -/
theorem C5_witness :
    onResults 0 none ⟨some 'D', 9/10, true, 7, some 'D'⟩ none (some 'D') =
      (⟨none, 0, false, 0, none⟩, false) ∧
    ((HandState.mk false 0 0 false none).isInCircle = false) ∧
    stabilityEffect (HandState.mk false 0 0 false none) none 'D' 2000 ⟨some 100, 900, false⟩ =
      (⟨some 100, 900, false⟩, false) :=
  ⟨C5_no_hand_amended.1 0 none ⟨some 'D', 9/10, true, 7, some 'D'⟩ (some 'D'), rfl,
    C5_no_hand_amended.2 (HandState.mk false 0 0 false none) none 'D' 2000
      ⟨some 100, 900, false⟩ rfl⟩

/-- C6, confirmed: submitting any non-empty name establishes
`currentLetterIndex < length targetName` (with `0 ≤ index` automatic for
naturals) while learning is active, and `handleNextLetter` preserves the
invariant on every transition — the branch that would exhaust the name
leaves the in-progress phase instead.  Non-empty submission is guaranteed by
NameInput.tsx, which only submits a trimmed non-empty name. -/
theorem C6_index_invariant :
    (∀ name : List Char, name ≠ [] → lessonInv (handleNameSubmit name)) ∧
    (∀ (ls : LearningState) (processing : Bool),
      lessonInv ls → lessonInv (handleNextLetter ls processing).1) := by
  constructor
  · intro name hne _
    simpa [handleNameSubmit] using List.length_pos.mpr hne
  · intro ls processing hInv
    unfold handleNextLetter
    split
    · exact hInv
    · split
      · intro _
        next hidx =>
        show ls.currentLetterIndex + 1 < ls.userName.length
        omega
      · intro hfalse
        exact Bool.noConfusion hfalse

/-- C6, witness: the invariant established by submitting the one-letter name
`"A"`, read off as a concrete index bound. -/
theorem C6_witness :
    ((['A'] : List Char) ≠ []) ∧
      (handleNameSubmit ['A']).currentLetterIndex < (handleNameSubmit ['A']).userName.length :=
  ⟨by decide, C6_index_invariant.1 ['A'] (by decide) rfl⟩

/-- C7, confirmed: submitting `"ab"` uppercases the name and starts in
progress at index 0; a first confirmation (with the cooldown clear) advances
to index 1, and the second, on the last letter, ends learning — reaching the
Completed phase with the index reset rather than incremented — and
`handleReset` returns any state to Idle with name and index cleared. -/
theorem C7_lifecycle :
    handleNameSubmit ['a', 'b'] = ⟨['A', 'B'], 0, true⟩ ∧
    phase (handleNameSubmit ['a', 'b']) = Phase.InProgress ∧
    (handleNextLetter (handleNameSubmit ['a', 'b']) false).1 = ⟨['A', 'B'], 1, true⟩ ∧
    (handleNextLetter (handleNextLetter (handleNameSubmit ['a', 'b']) false).1 false).1 =
      ⟨['A', 'B'], 0, false⟩ ∧
    phase (handleNextLetter (handleNextLetter (handleNameSubmit ['a', 'b']) false).1 false).1 =
      Phase.Completed ∧
    ∀ ls : LearningState,
      handleReset ls = ⟨[], 0, false⟩ ∧ phase (handleReset ls) = Phase.Idle :=
  ⟨by decide, by decide, by decide, by decide, by decide, fun _ => ⟨rfl, rfl⟩⟩

/-- In a registration epoch whose frozen counter is below 3, no single frame
ever schedules the `onCorrectGesture` timeout: the `detectionCount >= 3`
guard reads the frozen value. -/
theorem onResults_no_fire (frozenCount : Nat) (frozenLast : Option Char)
    (s : DetectorState) (frame : Option FingerPattern) (target : Option Char)
    (h : frozenCount < 3) :
    (onResults frozenCount frozenLast s frame target).2 = false := by
  have hn : ¬ 3 ≤ frozenCount := Nat.not_le.mpr h
  cases frame with
  | none => rfl
  | some fs =>
    simp only [onResults]
    split <;> simp [hn]

/-- C2, the code evaluated at the claim's scenario: part_001 registers the
callback once per effect run (dependency array `[isActive, targetLetter,
onCorrectGesture]`, line 169), so the `detectionCount >= 3` guard reads the
registration-time counter and `letter === lastDetectedLetter` compares
against the registration-time letter.  In any epoch registered with a
counter below the threshold — in particular from mount, where it is 0 and
the letter is null — no stream of frames, however long and however well it
matches the target, ever fires `onCorrectGesture`; moreover from mount
every hand frame stores the live counter back to exactly 1, so the counter
the claim speaks of never accumulates.  This contradicts the code's own
comment "Require 3 consistent detections before triggering" (line 80) and
its detectionCount-out-of-3 progress display: the claim states the
documented intent and the code's frozen closure is the slip (part_002 adds
the state to the dependency array, line 134, repairing exactly this). -/
theorem C2_advance_never_fires :
    (∀ (frozenCount : Nat) (frozenLast : Option Char) (target : Option Char)
        (s : DetectorState) (frames : List (Option FingerPattern)),
      frozenCount < 3 →
      (runFrames frozenCount frozenLast target s frames).2 = 0) ∧
    (∀ (s : DetectorState) (fs : FingerPattern) (target : Option Char),
      (onResults 0 none s (some fs) target).1.detectionCount = 1) := by
  constructor
  · intro frozenCount frozenLast target s frames h
    induction frames generalizing s with
    | nil => rfl
    | cons frame rest ih =>
      have h1 := onResults_no_fire frozenCount frozenLast s frame target h
      simp [runFrames, h1, ih]
  · intro s fs target
    simp only [onResults]
    split <;> simp

/-- C2, witness: from mount (frozen counter 0, frozen letter null), five
consecutive frames of `D`'s own pattern with `D` as target fire zero
advances. -/
theorem C2_witness :
    (0 < 3) ∧
    (runFrames 0 none (some 'D') ⟨none, 0, false, 0, none⟩
      (List.replicate 5 (some ⟨false, true, false, false, false⟩))).2 = 0 :=
  ⟨by decide,
    C2_advance_never_fires.1 0 none (some 'D') ⟨none, 0, false, 0, none⟩
      (List.replicate 5 (some ⟨false, true, false, false, false⟩)) (by decide)⟩

end SpellYourName
